import Mathlib

/-!
Verification development for the Renso Foundation GitHub-OAuth proxy
(Vercel serverless function for Decap CMS).

The repository contains two variants of the same request handler:
  * `src/api/auth.js`        — modelled in namespace `AuthJs`
  * `src/unnamed/part_000`   — modelled in namespace `Part000`
Both export an async `handler(req, res)` implementing the three-stage
OAuth flow: redirect issuance (no `code`), code-to-token exchange, and
an HTML page that relays the outcome to the opener window via
`postMessage`.

The embedding is shallow: the provider's token-endpoint response (the
result of `fetch` + `.json()`) is an explicit input of type
`Except Exn TokenData` (`.error e` models a thrown exception caught by
the handler's `try/catch`; `.ok td` models successfully parsed JSON).
The value produced by `crypto.randomUUID()` is an explicit input
`uuid`.  The HTTP response is modelled structurally: the status code,
the `Content-Type` header explicitly set by the handler code (`none`
when the handler sets none; framework defaults are outside the model),
and the page body.  The behaviour of the relaying scripts embedded in
the HTML pages is modelled as functions from the list of message
events the popup receives to the list of `postMessage` calls it makes.
-/

/-- JavaScript truthiness of a nullable string
(`searchParams.get` returns `null` for an absent parameter, and the
empty string is falsy). -/
def truthyOpt : Option String → Bool
  | none => false
  | some s => !s.isEmpty

/-- JavaScript `a || b` for a nullable string `a` and string `b`. -/
def jsOr (a : Option String) (b : String) : String :=
  match a with
  | some s => if s.isEmpty then b else s
  | none => b

/-- One hexadecimal digit (used by `JSON.stringify` control-character
escapes). -/
def hexDigit (n : Nat) : Char :=
  if n < 10 then Char.ofNat (48 + n) else Char.ofNat (87 + n)

/-- `JSON.stringify` escaping of a single character inside a string
literal: `"` and `\` are backslash-escaped, the common control
characters get their short escapes, other control characters get
`\u00XX`, everything else is unchanged. -/
def jsonEscapeChar (c : Char) : String :=
  if c = '"' then "\\\""
  else if c = '\\' then "\\\\"
  else if c = '\n' then "\\n"
  else if c = '\r' then "\\r"
  else if c = '\t' then "\\t"
  else if c.toNat < 32 then
    "\\u00" ++ String.singleton (hexDigit (c.toNat / 16))
            ++ String.singleton (hexDigit (c.toNat % 16))
  else String.singleton c

/-- `JSON.stringify` escaping applied to every character of a string. -/
def jsonEscape (s : String) : String :=
  s.data.foldr (fun c acc => jsonEscapeChar c ++ acc) ""

/-- `JSON.stringify` of a JavaScript string: surrounding quotes plus
escaping. -/
def jsonStr (s : String) : String := "\"" ++ jsonEscape s ++ "\""

/-- Auxiliary substring search on character lists. -/
def strContainsAux (needle : List Char) : List Char → Bool
  | [] => needle.isPrefixOf []
  | c :: rest => needle.isPrefixOf (c :: rest) || strContainsAux needle rest

/-- `strContains h n = true` iff `n` occurs as a contiguous substring
of `h`. -/
def strContains (h n : String) : Bool :=
  strContainsAux n.data h.data

/-- The provider's token-endpoint JSON response
(`tokenData = await tokenRes.json()`).  Each field is `none` when the
key is absent from the JSON object. -/
structure TokenData where
  error : Option String
  error_description : Option String
  access_token : Option String
deriving Repr, DecidableEq

/-- An exception thrown during the exchange (network failure of
`fetch`, malformed JSON in `.json()`, …), caught by the handler's
`try/catch`. -/
structure Exn where
  message : String
deriving Repr, DecidableEq

/-- Outcome of `fetch` + `.json()`: either parsed token data or a
thrown exception. -/
abbrev FetchResult := Except Exn TokenData

/-- The query parameters of the GitHub authorization URL built by a
`URLSearchParams` object in the redirect branch
(`https://github.com/login/oauth/authorize?${params}`).
`state = none` models the parameter being absent from the URL. -/
structure AuthorizeParams where
  client_id : String
  scope : String
  state : Option String
  redirect_uri : String
deriving Repr, DecidableEq

/-- The JSON body POSTed to
`https://github.com/login/oauth/access_token`.
`redirect_uri = none` models the key being absent from the body. -/
structure TokenRequest where
  client_id : String
  client_secret : String
  code : String
  redirect_uri : Option String
deriving Repr, DecidableEq

/-- The dynamic content of an HTML response body.  `errorPage desc`
is the 401 page whose script posts the error message built from
`desc`; `successPage tok` is the 200 handshake page built around the
(possibly absent) `access_token`; `text s` is a plain body whose
dynamic content is `s` (surrounding static markup of the templates is
elided). -/
inductive Body where
  | errorPage (desc : String)
  | successPage (access_token : Option String)
  | text (s : String)
deriving Repr, DecidableEq

/-- The handler's HTTP response: a 302 redirect carrying the
authorization-URL query parameters, or a sent body with a status code
and the `Content-Type` header explicitly set by the handler
(`none` when the handler never sets one). -/
inductive Response where
  | redirect (status : Nat) (params : AuthorizeParams)
  | send (status : Nat) (contentType : Option String) (body : Body)
deriving Repr, DecidableEq

/-- A `message` event received by the popup window.  `fromOpener`
records whether `event.source` is the opener window; the relaying
scripts never inspect it. -/
structure MessageEvent where
  origin : String
  fromOpener : Bool
deriving Repr, DecidableEq

/-- One `window.opener.postMessage(message, targetOrigin)` call. -/
structure Post where
  message : String
  targetOrigin : String
deriving Repr, DecidableEq

/-- `JSON.stringify({ token, provider: 'github' })` where `token` may
be `undefined` (an `undefined` value makes `JSON.stringify` drop the
key). -/
def stringifyTokenProvider : Option String → String
  | some t => "\x7b\"token\":" ++ jsonStr t ++ ",\"provider\":\"github\"\x7d"
  | none => "\x7b\"provider\":\"github\"\x7d"

/-- The success message string
`'authorization:github:success:' + JSON.stringify({ token, provider: 'github' })`
(identical in both handler variants). -/
def successMsg (tok : Option String) : String :=
  "authorization:github:success:" ++ stringifyTokenProvider tok

/-- The error message string
`'authorization:github:error:' + JSON.stringify(desc)`
(both variants build this shape; they differ only in which field of
the provider response supplies `desc`). -/
def errorMsg (desc : String) : String :=
  "authorization:github:error:" ++ jsonStr desc

/-- The unauthenticated announcement posted by the success page on
load: `window.opener.postMessage('authorizing:github', '*')`. -/
def authorizingPost : Post :=
  { message := "authorizing:github", targetOrigin := "*" }

/-- The `receiveMessage` listener of the success page: on any message
event `e` it posts the success message to `e.origin`
(`window.opener.postMessage(msg, e.origin)`).  It never inspects
`e.source` and is never removed. -/
def receiveMessage (tok : Option String) (e : MessageEvent) : Post :=
  { message := successMsg tok, targetOrigin := e.origin }

/-- The posts made by the 200 success page over its lifetime: on load
it registers `receiveMessage` and posts `authorizing:github` to `'*'`;
every subsequently received message event triggers `receiveMessage`. -/
def successPagePosts (tok : Option String) (events : List MessageEvent) :
    List Post :=
  authorizingPost :: events.map (receiveMessage tok)

/-- The posts made by the 401 error page: it registers no listener and
immediately posts the error message to the wildcard target `'*'`,
independently of any received message events. -/
def errorPagePosts (desc : String) : List Post :=
  [{ message := errorMsg desc, targetOrigin := "*" }]

namespace AuthJs

/-- The environment variables read by `src/api/auth.js` at module
load. -/
structure Env where
  GITHUB_CLIENT_ID : String
  GITHUB_CLIENT_SECRET : String
  VERCEL_URL : Option String
deriving Repr, DecidableEq

/-- `const ORIGIN = process.env.VERCEL_URL ?
\x7bhttps://$\x7bprocess.env.VERCEL_URL\x7d\x7d : 'https://renso-foundation.vercel.app'` -/
def ORIGIN (env : Env) : String :=
  if truthyOpt env.VERCEL_URL
  then "https://" ++ env.VERCEL_URL.getD ""
  else "https://renso-foundation.vercel.app"

/-- The request as seen by the handler after
`new URL(req.url, ORIGIN)`: the `code` and `state` query parameters
(`searchParams.get` returns `null`, i.e. `none`, when absent).  This
variant reads no request headers. -/
structure Req where
  code : Option String
  state : Option String
deriving Repr, DecidableEq

/-- The JSON body of the token-exchange POST in `src/api/auth.js`:
`JSON.stringify({ client_id, client_secret, code })` — note that this
variant sends no `redirect_uri` key. -/
def tokenRequest (env : Env) (code : String) : TokenRequest :=
  { client_id := env.GITHUB_CLIENT_ID
    client_secret := env.GITHUB_CLIENT_SECRET
    code := code
    redirect_uri := none }

/-- The handler of `src/api/auth.js`.  `uuid` is the value
`crypto.randomUUID()` would return; `fr` is the outcome of the
token-endpoint call. -/
def handler (env : Env) (req : Req) (uuid : String) (fr : FetchResult) :
    Response :=
  if !truthyOpt req.code then
    Response.redirect 302
      { client_id := env.GITHUB_CLIENT_ID
        scope := "repo,user"
        state := some (jsOr req.state uuid)
        redirect_uri := ORIGIN env ++ "/api/auth" }
  else
    match fr with
    | Except.error _ =>
        Response.send 500 none (Body.text "Authentication failed. Please try again.")
    | Except.ok td =>
        if truthyOpt td.error then
          Response.send 401 none (Body.errorPage (td.error.getD ""))
        else
          Response.send 200 (some "text/html") (Body.successPage td.access_token)

end AuthJs

namespace Part000

/-- The environment variables read by `src/unnamed/part_000` at module
load. -/
structure Env where
  GITHUB_CLIENT_ID : String
  GITHUB_CLIENT_SECRET : String
  PRODUCTION_URL : Option String
deriving Repr, DecidableEq

/-- `const ORIGIN = process.env.PRODUCTION_URL ||
'https://renso-foundation.vercel.app'` -/
def ORIGIN (env : Env) : String :=
  jsOr env.PRODUCTION_URL "https://renso-foundation.vercel.app"

/-- `const CALLBACK = \x7b$\x7bORIGIN\x7d/api/auth\x7d` — computed per
request from the fixed `ORIGIN`, never from request headers. -/
def CALLBACK (env : Env) : String :=
  ORIGIN env ++ "/api/auth"

/-- The request as seen by the handler of `src/unnamed/part_000`:
the `code` and `state` query parameters, plus the headers it reads
(`x-forwarded-host`, `host`, `x-forwarded-proto`), which are used only
as the base for `new URL(req.url, baseUrl)`. -/
structure Req where
  code : Option String
  state : Option String
  xForwardedHost : Option String
  host : Option String
  xForwardedProto : Option String
deriving Repr, DecidableEq

/-- The JSON body of the token-exchange POST in
`src/unnamed/part_000`:
`JSON.stringify({ client_id, client_secret, code, redirect_uri: CALLBACK })`. -/
def tokenRequest (env : Env) (code : String) : TokenRequest :=
  { client_id := env.GITHUB_CLIENT_ID
    client_secret := env.GITHUB_CLIENT_SECRET
    code := code
    redirect_uri := some (CALLBACK env) }

/-- The handler of `src/unnamed/part_000`.  `fr` is the outcome of the
token-endpoint call.  Differences from `AuthJs.handler`: `state` is
set on the redirect only when truthy (`if (state) params.set('state',
state)`); the 401 and 500 responses set `Content-Type: text/html`; the
401 message is built from `error_description || error`; the 500 body
interpolates `err.message`. -/
def handler (env : Env) (req : Req) (fr : FetchResult) : Response :=
  if !truthyOpt req.code then
    Response.redirect 302
      { client_id := env.GITHUB_CLIENT_ID
        scope := "repo,user"
        state := if truthyOpt req.state then req.state else none
        redirect_uri := CALLBACK env }
  else
    match fr with
    | Except.error e =>
        Response.send 500 (some "text/html")
          (Body.text ("Authentication failed: " ++ e.message))
    | Except.ok td =>
        if truthyOpt td.error then
          Response.send 401 (some "text/html")
            (Body.errorPage (jsOr td.error_description (td.error.getD "")))
        else
          Response.send 200 (some "text/html") (Body.successPage td.access_token)

end Part000

/-! ## Helper lemmas -/

theorem isPrefixOf_append_self (n b : List Char) : n.isPrefixOf (n ++ b) = true := by
  induction n with
  | nil => simp [List.isPrefixOf]
  | cons c t ih => simp [List.isPrefixOf, ih]

theorem strContainsAux_middle (n b : List Char) :
    ∀ a : List Char, strContainsAux n (a ++ (n ++ b)) = true := by
  intro a
  induction a with
  | nil =>
    cases h : n ++ b with
    | nil =>
      have hn : n = [] := (List.append_eq_nil.mp h).1
      simp [strContainsAux, hn, List.isPrefixOf]
    | cons c rest =>
      simp only [List.nil_append, strContainsAux, ← h, isPrefixOf_append_self,
        Bool.true_or]
  | cons c a' ih =>
    show (n.isPrefixOf (c :: (a' ++ (n ++ b))) || strContainsAux n (a' ++ (n ++ b))) = true
    rw [ih, Bool.or_true]

theorem strContainsAux_of_split (n h a b : List Char) (he : h = a ++ (n ++ b)) :
    strContainsAux n h = true := by
  subst he; exact strContainsAux_middle n b a

/-- A token needing no `JSON.stringify` escaping occurs verbatim in the
success message built around it. -/
theorem strContains_successMsg (t : String) (hesc : jsonEscape t = t) :
    strContains (successMsg (some t)) t = true := by
  show strContainsAux t.data (successMsg (some t)).data = true
  apply strContainsAux_of_split t.data _
      ("authorization:github:success:".data ++ ("\x7b\"token\":".data ++ "\"".data))
      ("\"".data ++ ",\"provider\":\"github\"\x7d".data)
  simp [successMsg, stringifyTokenProvider, jsonStr, hesc, String.data_append,
    List.append_assoc]

/-- An error value needing no `JSON.stringify` escaping occurs verbatim
in the error message built around it. -/
theorem strContains_errorMsg (d : String) (hesc : jsonEscape d = d) :
    strContains (errorMsg d) d = true := by
  show strContainsAux d.data (errorMsg d).data = true
  apply strContainsAux_of_split d.data _
      ("authorization:github:error:".data ++ "\"".data) ("\"".data)
  simp [errorMsg, jsonStr, hesc, String.data_append, List.append_assoc]

/-- `a || b` in JavaScript is non-empty whenever `b` is. -/
theorem jsOr_ne_empty (a : Option String) (b : String) (hb : b ≠ "") :
    jsOr a b ≠ "" := by
  cases a with
  | none => exact hb
  | some s =>
    by_cases hs : s.isEmpty
    · simp [jsOr, hs]; exact hb
    · simpa [jsOr, hs] using fun he => hs (by simp [he, String.isEmpty_iff])

/-! ## Claim theorems -/

/-- C1: For any callback request (truthy `code`) whose provider
token-endpoint JSON response contains `access_token` (the provider's
response carries no truthy `error`, which the code classifies first),
both handler variants return HTTP 200 with `Content-Type: text/html`,
and for every message event `e` the page receives from the opener, the
relayed reply is addressed to `e.origin` — not to a wildcard — and its
message contains the exact token value. -/
theorem C1_success_token_relayed_to_event_origin
    (envA : AuthJs.Env) (reqA : AuthJs.Req) (uuid : String)
    (envB : Part000.Env) (reqB : Part000.Req)
    (td : TokenData) (t : String) (e : MessageEvent) (events : List MessageEvent)
    (hcA : truthyOpt reqA.code = true) (hcB : truthyOpt reqB.code = true)
    (herr : truthyOpt td.error = false) (htok : td.access_token = some t)
    (hesc : jsonEscape t = t) (hev : e ∈ events) :
    AuthJs.handler envA reqA uuid (Except.ok td)
      = Response.send 200 (some "text/html") (Body.successPage (some t)) ∧
    Part000.handler envB reqB (Except.ok td)
      = Response.send 200 (some "text/html") (Body.successPage (some t)) ∧
    receiveMessage (some t) e ∈ (successPagePosts (some t) events).drop 1 ∧
    (receiveMessage (some t) e).targetOrigin = e.origin ∧
    strContains (receiveMessage (some t) e).message t = true := by
  refine ⟨?_, ?_, ?_, rfl, strContains_successMsg t hesc⟩
  · simp [AuthJs.handler, hcA, herr, htok]
  · simp [Part000.handler, hcB, herr, htok]
  · simpa [successPagePosts] using List.mem_map_of_mem (receiveMessage (some t)) hev

/-- C1 witness: concrete instance — code `abc123`, provider response
`{"access_token":"tok_xyz"}`, one opener message from
`https://cms.example`. -/
theorem C1_success_token_relayed_to_event_origin_witness :
    AuthJs.handler ⟨"id", "sec", none⟩ ⟨some "abc123", some "st"⟩ "u"
        (Except.ok ⟨none, none, some "tok_xyz"⟩)
      = Response.send 200 (some "text/html") (Body.successPage (some "tok_xyz")) ∧
    Part000.handler ⟨"id", "sec", none⟩ ⟨some "abc123", none, none, none, none⟩
        (Except.ok ⟨none, none, some "tok_xyz"⟩)
      = Response.send 200 (some "text/html") (Body.successPage (some "tok_xyz")) ∧
    receiveMessage (some "tok_xyz") ⟨"https://cms.example", true⟩
        ∈ (successPagePosts (some "tok_xyz") [⟨"https://cms.example", true⟩]).drop 1 ∧
    (receiveMessage (some "tok_xyz") ⟨"https://cms.example", true⟩).targetOrigin
        = "https://cms.example" ∧
    strContains (receiveMessage (some "tok_xyz") ⟨"https://cms.example", true⟩).message
        "tok_xyz" = true :=
  C1_success_token_relayed_to_event_origin
    ⟨"id", "sec", none⟩ ⟨some "abc123", some "st"⟩ "u"
    ⟨"id", "sec", none⟩ ⟨some "abc123", none, none, none, none⟩
    ⟨none, none, some "tok_xyz"⟩ "tok_xyz" ⟨"https://cms.example", true⟩
    [⟨"https://cms.example", true⟩]
    (by decide) (by decide) (by decide) (by decide) (by decide) (by decide)

/-- C6: The client secret is confined to the token-endpoint POST body:
in both variants the HTTP response is the same function of the request
and the provider's response whatever the configured secret is (so no
response body or relayed message payload can carry the secret), while
the POST body of the server-to-server exchange does carry it. -/
theorem C6_secret_confined_to_token_request
    (cid s1 s2 : String) (vu pu : Option String)
    (reqA : AuthJs.Req) (uuid : String) (reqB : Part000.Req)
    (fr : FetchResult) (code : String) :
    AuthJs.handler ⟨cid, s1, vu⟩ reqA uuid fr
      = AuthJs.handler ⟨cid, s2, vu⟩ reqA uuid fr ∧
    Part000.handler ⟨cid, s1, pu⟩ reqB fr
      = Part000.handler ⟨cid, s2, pu⟩ reqB fr ∧
    (AuthJs.tokenRequest ⟨cid, s1, vu⟩ code).client_secret = s1 ∧
    (Part000.tokenRequest ⟨cid, s1, pu⟩ code).client_secret = s1 := by
  refine ⟨?_, ?_, rfl, rfl⟩
  · simp [AuthJs.handler, AuthJs.ORIGIN]
  · simp [Part000.handler, Part000.CALLBACK, Part000.ORIGIN]

/-- C9: The callback path never reads the `state` parameter: two
callback requests (truthy `code`) that differ only in `state` produce
identical responses in both variants, given the same environment and
the same provider response. -/
theorem C9_callback_response_ignores_state
    (envA : AuthJs.Env) (c : String) (s1 s2 : Option String) (uuid : String)
    (fr : FetchResult)
    (envB : Part000.Env) (h1 h2 h3 : Option String)
    (hc : truthyOpt (some c) = true) :
    AuthJs.handler envA ⟨some c, s1⟩ uuid fr
      = AuthJs.handler envA ⟨some c, s2⟩ uuid fr ∧
    Part000.handler envB ⟨some c, s1, h1, h2, h3⟩ fr
      = Part000.handler envB ⟨some c, s2, h1, h2, h3⟩ fr := by
  constructor
  · simp [AuthJs.handler, hc]
  · simp [Part000.handler, hc]

/-- C9 witness: concrete instance — two callback requests for code
`abc123` whose `state` values differ. -/
theorem C9_callback_response_ignores_state_witness :
    AuthJs.handler ⟨"id", "sec", none⟩ ⟨some "abc123", some "stateA"⟩ "u"
        (Except.ok ⟨none, none, some "tok"⟩)
      = AuthJs.handler ⟨"id", "sec", none⟩ ⟨some "abc123", some "stateB"⟩ "u"
          (Except.ok ⟨none, none, some "tok"⟩) ∧
    Part000.handler ⟨"id", "sec", none⟩
        ⟨some "abc123", some "stateA", none, none, none⟩
        (Except.ok ⟨none, none, some "tok"⟩)
      = Part000.handler ⟨"id", "sec", none⟩
          ⟨some "abc123", some "stateB", none, none, none⟩
          (Except.ok ⟨none, none, some "tok"⟩) :=
  C9_callback_response_ignores_state ⟨"id", "sec", none⟩ "abc123"
    (some "stateA") (some "stateB") "u" (Except.ok ⟨none, none, some "tok"⟩)
    ⟨"id", "sec", none⟩ none none none (by decide)

/-- C10: The success page's `receiveMessage` listener is never removed
and never checks the sender: the page makes one post per received
message event (not only the first), and the post for the `i`-th event
carries the success message to that event's origin, whatever its
source window was. -/
theorem C10_listener_replies_to_every_event
    (tok : Option String) (events : List MessageEvent)
    (o : String) (b1 b2 : Bool) (i : Nat) (hi : i < events.length) :
    (successPagePosts tok events).length = events.length + 1 ∧
    (successPagePosts tok events).get
        ⟨i + 1, by simpa [successPagePosts] using Nat.succ_lt_succ hi⟩
      = { message := successMsg tok, targetOrigin := (events.get ⟨i, hi⟩).origin } ∧
    receiveMessage tok ⟨o, b1⟩ = receiveMessage tok ⟨o, b2⟩ := by
  refine ⟨by simp [successPagePosts], ?_, rfl⟩
  simp [successPagePosts, receiveMessage]

/-- C10 witness: concrete instance — three message events, the third
one not from the opener, still answered at its own origin. -/
theorem C10_listener_replies_to_every_event_witness :
    (successPagePosts (some "tok")
        [⟨"https://cms.example", true⟩, ⟨"https://cms.example", true⟩,
         ⟨"https://evil.example", false⟩]).length = 3 + 1 ∧
    (successPagePosts (some "tok")
        [⟨"https://cms.example", true⟩, ⟨"https://cms.example", true⟩,
         ⟨"https://evil.example", false⟩]).get ⟨2 + 1, by decide⟩
      = { message := successMsg (some "tok"), targetOrigin := "https://evil.example" } ∧
    receiveMessage (some "tok") ⟨"https://a.example", true⟩
      = receiveMessage (some "tok") ⟨"https://a.example", false⟩ :=
  C10_listener_replies_to_every_event (some "tok")
    [⟨"https://cms.example", true⟩, ⟨"https://cms.example", true⟩,
     ⟨"https://evil.example", false⟩]
    "https://a.example" true false 2 (by decide)

/-- C2 counterexample: the `src/api/auth.js` variant sends no
`redirect_uri` key at all in the token-exchange POST body, so the value
cannot equal the callback URL used at redirect issuance. -/
theorem C2_auth_js_omits_redirect_uri :
    (AuthJs.tokenRequest ⟨"id", "sec", none⟩ "abc123").redirect_uri = none ∧
    (AuthJs.tokenRequest ⟨"id", "sec", none⟩ "abc123").redirect_uri
      ≠ some "https://renso-foundation.vercel.app/api/auth" := by
  decide

/-- C2 amended: in the `part_000` variant the token-exchange POST body
carries `redirect_uri` byte-identical to the callback URL used at
redirect issuance (both are the same `CALLBACK` value); the
`auth.js` variant omits `redirect_uri` from the POST body entirely. -/
theorem C2_redirect_uri_binding
    (env : Part000.Env) (req : Part000.Req) (code : String) (fr : FetchResult)
    (envA : AuthJs.Env) (codeA : String)
    (hc : truthyOpt req.code = false) :
    (Part000.tokenRequest env code).redirect_uri = some (Part000.CALLBACK env) ∧
    Part000.handler env req fr
      = Response.redirect 302
          { client_id := env.GITHUB_CLIENT_ID
            scope := "repo,user"
            state := if truthyOpt req.state then req.state else none
            redirect_uri := Part000.CALLBACK env } ∧
    (AuthJs.tokenRequest envA codeA).redirect_uri = none := by
  refine ⟨rfl, ?_, rfl⟩
  simp [Part000.handler, hc]

/-- C2 witness: concrete instance of the amended claim. -/
theorem C2_redirect_uri_binding_witness :
    (Part000.tokenRequest ⟨"id", "sec", none⟩ "abc123").redirect_uri
      = some (Part000.CALLBACK ⟨"id", "sec", none⟩) ∧
    Part000.handler ⟨"id", "sec", none⟩ ⟨none, some "st", none, none, none⟩
        (Except.ok ⟨none, none, none⟩)
      = Response.redirect 302
          { client_id := "id"
            scope := "repo,user"
            state := if truthyOpt (some "st") then some "st" else none
            redirect_uri := Part000.CALLBACK ⟨"id", "sec", none⟩ } ∧
    (AuthJs.tokenRequest ⟨"id", "sec", none⟩ "abc123").redirect_uri = none :=
  C2_redirect_uri_binding ⟨"id", "sec", none⟩ ⟨none, some "st", none, none, none⟩
    "abc123" (Except.ok ⟨none, none, none⟩) ⟨"id", "sec", none⟩ "abc123" (by decide)

/-- C3 counterexample: in both variants the Error outcome is posted to
the wildcard target `'*'` by a page that registers no listener, i.e.
without first receiving any opener message. -/
theorem C3_error_outcome_goes_to_wildcard :
    AuthJs.handler ⟨"id", "sec", none⟩ ⟨some "abc123", none⟩ "u"
        (Except.ok ⟨some "access_denied", none, none⟩)
      = Response.send 401 none (Body.errorPage "access_denied") ∧
    Part000.handler ⟨"id", "sec", none⟩ ⟨some "abc123", none, none, none, none⟩
        (Except.ok ⟨some "access_denied", none, none⟩)
      = Response.send 401 (some "text/html") (Body.errorPage "access_denied") ∧
    (errorPagePosts "access_denied").map Post.targetOrigin = ["*"] := by
  decide

/-- C3 amended: the Success outcome is handshake-gated — without an
opener message the success page posts only the `authorizing`
announcement, and each reply is addressed to the received message's
origin — but the Error outcome is posted immediately to the wildcard
target `'*'` in both variants. -/
theorem C3_outcome_targeting
    (tok : Option String) (desc : String) (e : MessageEvent)
    (events : List MessageEvent) (hev : e ∈ events) :
    successPagePosts tok [] = [authorizingPost] ∧
    receiveMessage tok e ∈ (successPagePosts tok events).drop 1 ∧
    (receiveMessage tok e).targetOrigin = e.origin ∧
    errorPagePosts desc = [{ message := errorMsg desc, targetOrigin := "*" }] := by
  refine ⟨rfl, ?_, rfl, rfl⟩
  simpa [successPagePosts] using List.mem_map_of_mem (receiveMessage tok) hev

/-- C3 witness: concrete instance of the amended claim. -/
theorem C3_outcome_targeting_witness :
    successPagePosts (some "tok") [] = [authorizingPost] ∧
    receiveMessage (some "tok") ⟨"https://cms.example", true⟩
        ∈ (successPagePosts (some "tok") [⟨"https://cms.example", true⟩]).drop 1 ∧
    (receiveMessage (some "tok") ⟨"https://cms.example", true⟩).targetOrigin
        = "https://cms.example" ∧
    errorPagePosts "access_denied"
      = [{ message := errorMsg "access_denied", targetOrigin := "*" }] :=
  C3_outcome_targeting (some "tok") "access_denied"
    ⟨"https://cms.example", true⟩ [⟨"https://cms.example", true⟩] (by decide)

/-- C4 counterexample: for the provider response
`{"error":"bad_verification_code","error_description":"The code passed
is incorrect or expired."}`, the `part_000` variant relays the
`error_description`, whose message does not contain the `error` field's
value, and the `auth.js` variant sets no `Content-Type` header on its
401 response. -/
theorem C4_error_payload_uses_description :
    Part000.handler ⟨"id", "sec", none⟩ ⟨some "expired", none, none, none, none⟩
        (Except.ok ⟨some "bad_verification_code",
                    some "The code passed is incorrect or expired.", none⟩)
      = Response.send 401 (some "text/html")
          (Body.errorPage "The code passed is incorrect or expired.") ∧
    strContains (errorMsg "The code passed is incorrect or expired.")
        "bad_verification_code" = false ∧
    AuthJs.handler ⟨"id", "sec", none⟩ ⟨some "expired", none⟩ "u"
        (Except.ok ⟨some "bad_verification_code",
                    some "The code passed is incorrect or expired.", none⟩)
      = Response.send 401 none (Body.errorPage "bad_verification_code") := by
  decide

/-- C4 amended: for any callback request whose provider response
carries a truthy `error`, both variants answer 401 with an error page
and no part of the response depends on `access_token` (so no token
value can appear in it); the relayed message of the `auth.js` variant
contains the `error` field's value, while the `part_000` variant relays
`error_description || error` and is the only variant that explicitly
sets `Content-Type: text/html` on this response. -/
theorem C4_error_response_classification
    (envA : AuthJs.Env) (reqA : AuthJs.Req) (uuid : String)
    (envB : Part000.Env) (reqB : Part000.Req)
    (errv : String) (d t1 t2 : Option String)
    (hcA : truthyOpt reqA.code = true) (hcB : truthyOpt reqB.code = true)
    (he : truthyOpt (some errv) = true) (hesc : jsonEscape errv = errv) :
    AuthJs.handler envA reqA uuid (Except.ok ⟨some errv, d, t1⟩)
      = Response.send 401 none (Body.errorPage errv) ∧
    Part000.handler envB reqB (Except.ok ⟨some errv, d, t1⟩)
      = Response.send 401 (some "text/html") (Body.errorPage (jsOr d errv)) ∧
    strContains (errorMsg errv) errv = true ∧
    AuthJs.handler envA reqA uuid (Except.ok ⟨some errv, d, t1⟩)
      = AuthJs.handler envA reqA uuid (Except.ok ⟨some errv, d, t2⟩) ∧
    Part000.handler envB reqB (Except.ok ⟨some errv, d, t1⟩)
      = Part000.handler envB reqB (Except.ok ⟨some errv, d, t2⟩) := by
  refine ⟨?_, ?_, strContains_errorMsg errv hesc, ?_, ?_⟩
  · simp [AuthJs.handler, hcA, he]
  · simp [Part000.handler, hcB, he]
  · simp [AuthJs.handler, hcA, he]
  · simp [Part000.handler, hcB, he]

/-- C4 witness: concrete instance of the amended claim. -/
theorem C4_error_response_classification_witness :
    AuthJs.handler ⟨"id", "sec", none⟩ ⟨some "expired", none⟩ "u"
        (Except.ok ⟨some "bad_verification_code", some "The code passed is incorrect or expired.", none⟩)
      = Response.send 401 none (Body.errorPage "bad_verification_code") ∧
    Part000.handler ⟨"id", "sec", none⟩ ⟨some "expired", none, none, none, none⟩
        (Except.ok ⟨some "bad_verification_code", some "The code passed is incorrect or expired.", none⟩)
      = Response.send 401 (some "text/html")
          (Body.errorPage (jsOr (some "The code passed is incorrect or expired.") "bad_verification_code")) ∧
    strContains (errorMsg "bad_verification_code") "bad_verification_code" = true ∧
    AuthJs.handler ⟨"id", "sec", none⟩ ⟨some "expired", none⟩ "u"
        (Except.ok ⟨some "bad_verification_code", some "The code passed is incorrect or expired.", none⟩)
      = AuthJs.handler ⟨"id", "sec", none⟩ ⟨some "expired", none⟩ "u"
          (Except.ok ⟨some "bad_verification_code", some "The code passed is incorrect or expired.", some "tok_leak"⟩) ∧
    Part000.handler ⟨"id", "sec", none⟩ ⟨some "expired", none, none, none, none⟩
        (Except.ok ⟨some "bad_verification_code", some "The code passed is incorrect or expired.", none⟩)
      = Part000.handler ⟨"id", "sec", none⟩ ⟨some "expired", none, none, none, none⟩
          (Except.ok ⟨some "bad_verification_code", some "The code passed is incorrect or expired.", some "tok_leak"⟩) :=
  C4_error_response_classification ⟨"id", "sec", none⟩ ⟨some "expired", none⟩ "u"
    ⟨"id", "sec", none⟩ ⟨some "expired", none, none, none, none⟩
    "bad_verification_code" (some "The code passed is incorrect or expired.")
    none (some "tok_leak")
    (by decide) (by decide) (by decide) (by decide)

/-- C5 counterexample: a request without `code` and without `state`
makes the `part_000` variant issue a redirect whose query has no
`state` parameter at all. -/
theorem C5_part000_omits_generated_state :
    Part000.handler ⟨"id", "sec", none⟩ ⟨none, none, none, none, none⟩
        (Except.ok ⟨none, none, none⟩)
      = Response.redirect 302
          { client_id := "id", scope := "repo,user", state := none,
            redirect_uri := "https://renso-foundation.vercel.app/api/auth" } := by
  decide

/-- C5 amended: for requests without a truthy `code`, both variants
issue a 302 to the authorization endpoint; the `auth.js` variant always
carries a `state` — the caller's value verbatim when truthy, otherwise
a freshly generated (`crypto.randomUUID()`) non-empty value — while the
`part_000` variant carries the caller's `state` verbatim when truthy
and omits the parameter otherwise. -/
theorem C5_redirect_state_issuance
    (envA : AuthJs.Env) (st : Option String) (uuid : String)
    (frA frB : FetchResult)
    (envB : Part000.Env) (h1 h2 h3 : Option String) (cA cB : Option String)
    (hcA : truthyOpt cA = false) (hcB : truthyOpt cB = false)
    (hu : uuid ≠ "") :
    AuthJs.handler envA ⟨cA, st⟩ uuid frA
      = Response.redirect 302
          { client_id := envA.GITHUB_CLIENT_ID, scope := "repo,user",
            state := some (jsOr st uuid),
            redirect_uri := AuthJs.ORIGIN envA ++ "/api/auth" } ∧
    (truthyOpt st = true → jsOr st uuid = st.getD "") ∧
    (truthyOpt st = false → jsOr st uuid = uuid) ∧
    jsOr st uuid ≠ "" ∧
    Part000.handler envB ⟨cB, st, h1, h2, h3⟩ frB
      = Response.redirect 302
          { client_id := envB.GITHUB_CLIENT_ID, scope := "repo,user",
            state := if truthyOpt st then st else none,
            redirect_uri := Part000.CALLBACK envB } := by
  refine ⟨?_, ?_, ?_, jsOr_ne_empty st uuid hu, ?_⟩
  · simp [AuthJs.handler, hcA]
  · cases st with
    | none => simp [truthyOpt]
    | some s =>
      intro h
      simp only [truthyOpt, Bool.not_eq_true'] at h
      simp [jsOr, h]
  · cases st with
    | none => intro _; rfl
    | some s =>
      intro h
      simp only [truthyOpt, Bool.not_eq_eq_eq_not, Bool.not_true] at h
      simp [jsOr, h]
  · simp [Part000.handler, hcB]

/-- C5 witness: concrete instance of the amended claim — no `state`
supplied, generated value `4ed14d03` carried by `auth.js`, parameter
omitted by `part_000`. -/
theorem C5_redirect_state_issuance_witness :
    AuthJs.handler ⟨"id", "sec", none⟩ ⟨none, none⟩ "4ed14d03"
        (Except.ok ⟨none, none, none⟩)
      = Response.redirect 302
          { client_id := "id", scope := "repo,user",
            state := some (jsOr none "4ed14d03"),
            redirect_uri := AuthJs.ORIGIN ⟨"id", "sec", none⟩ ++ "/api/auth" } ∧
    (truthyOpt none = true → jsOr none "4ed14d03" = Option.getD none "") ∧
    (truthyOpt none = false → jsOr none "4ed14d03" = "4ed14d03") ∧
    jsOr none "4ed14d03" ≠ "" ∧
    Part000.handler ⟨"id", "sec", none⟩ ⟨none, none, none, none, none⟩
        (Except.ok ⟨none, none, none⟩)
      = Response.redirect 302
          { client_id := "id", scope := "repo,user",
            state := if truthyOpt none then none else none,
            redirect_uri := Part000.CALLBACK ⟨"id", "sec", none⟩ } :=
  C5_redirect_state_issuance ⟨"id", "sec", none⟩ none "4ed14d03"
    (Except.ok ⟨none, none, none⟩) (Except.ok ⟨none, none, none⟩)
    ⟨"id", "sec", none⟩ none none none none none
    (by decide) (by decide) (by decide)

/-- C7 counterexample: when the exchange throws (e.g. the network call
fails with `connect ECONNREFUSED`), the `part_000` variant's 500 body
embeds the exception's message text. -/
theorem C7_part000_leaks_exception_message :
    Part000.handler ⟨"id", "sec", none⟩ ⟨some "abc123", none, none, none, none⟩
        (Except.error ⟨"connect ECONNREFUSED 140.82.112.3:443"⟩)
      = Response.send 500 (some "text/html")
          (Body.text "Authentication failed: connect ECONNREFUSED 140.82.112.3:443") ∧
    strContains "Authentication failed: connect ECONNREFUSED 140.82.112.3:443"
        "connect ECONNREFUSED 140.82.112.3:443" = true := by
  decide

/-- C7 amended: every exception thrown during the exchange is caught
and answered with HTTP 500 in both variants (the handler yields a
response for every fetch outcome, so nothing propagates); the
`auth.js` variant's body is a fixed generic message, identical whatever
the exception was, while the `part_000` variant's body embeds the
exception's message text. -/
theorem C7_exception_surfaced_as_500
    (envA : AuthJs.Env) (reqA : AuthJs.Req) (uuid : String) (e1 e2 : Exn)
    (envB : Part000.Env) (reqB : Part000.Req)
    (hcA : truthyOpt reqA.code = true) (hcB : truthyOpt reqB.code = true) :
    AuthJs.handler envA reqA uuid (Except.error e1)
      = Response.send 500 none (Body.text "Authentication failed. Please try again.") ∧
    AuthJs.handler envA reqA uuid (Except.error e1)
      = AuthJs.handler envA reqA uuid (Except.error e2) ∧
    Part000.handler envB reqB (Except.error e1)
      = Response.send 500 (some "text/html")
          (Body.text ("Authentication failed: " ++ e1.message)) := by
  refine ⟨?_, ?_, ?_⟩
  · simp [AuthJs.handler, hcA]
  · simp [AuthJs.handler, hcA]
  · simp [Part000.handler, hcB]

/-- C7 witness: concrete instance of the amended claim. -/
theorem C7_exception_surfaced_as_500_witness :
    AuthJs.handler ⟨"id", "sec", none⟩ ⟨some "abc123", none⟩ "u"
        (Except.error ⟨"boom"⟩)
      = Response.send 500 none (Body.text "Authentication failed. Please try again.") ∧
    AuthJs.handler ⟨"id", "sec", none⟩ ⟨some "abc123", none⟩ "u"
        (Except.error ⟨"boom"⟩)
      = AuthJs.handler ⟨"id", "sec", none⟩ ⟨some "abc123", none⟩ "u"
          (Except.error ⟨"other failure"⟩) ∧
    Part000.handler ⟨"id", "sec", none⟩ ⟨some "abc123", none, none, none, none⟩
        (Except.error ⟨"boom"⟩)
      = Response.send 500 (some "text/html")
          (Body.text ("Authentication failed: " ++ Exn.message ⟨"boom"⟩)) :=
  C7_exception_surfaced_as_500 ⟨"id", "sec", none⟩ ⟨some "abc123", none⟩ "u"
    ⟨"boom"⟩ ⟨"other failure"⟩ ⟨"id", "sec", none⟩
    ⟨some "abc123", none, none, none, none⟩ (by decide) (by decide)

/-- C8 counterexample: in `src/api/auth.js` the base URL used for the
callback is derived from the per-deployment `VERCEL_URL` environment
value — two deployments with different `VERCEL_URL` produce different
callback bases, so the base is not independent of the per-deployment
host value. -/
theorem C8_auth_js_origin_tracks_vercel_url :
    AuthJs.ORIGIN ⟨"id", "sec", some "renso-abc123-team.vercel.app"⟩
      = "https://renso-abc123-team.vercel.app" ∧
    AuthJs.ORIGIN ⟨"id", "sec", some "renso-def456-team.vercel.app"⟩
      ≠ AuthJs.ORIGIN ⟨"id", "sec", some "renso-abc123-team.vercel.app"⟩ := by
  decide

/-- C8 amended: in both variants the callback URL is a function of the
process-wide environment only — independent of every request header and
query parameter, hence identical for any two requests served by the
same process, and `part_000` reuses the very same `CALLBACK` value in
the redirect and the token exchange — but only `part_000` derives it
from the fixed configured `PRODUCTION_URL` (with a fixed fallback);
`auth.js` derives it from the per-deployment `VERCEL_URL` when that is
set. -/
theorem C8_callback_base_is_process_wide
    (cid1 cid2 cs1 cs2 : String) (pu : Option String)
    (env : Part000.Env) (c1 : String) (r1 : Part000.Req) (fr1 : FetchResult)
    (envA : AuthJs.Env) (stA : Option String) (uuidA : String) (frA : FetchResult)
    (h1 : truthyOpt r1.code = false) :
    Part000.CALLBACK ⟨cid1, cs1, pu⟩ = Part000.CALLBACK ⟨cid2, cs2, pu⟩ ∧
    (Part000.tokenRequest env c1).redirect_uri = some (Part000.CALLBACK env) ∧
    Part000.handler env r1 fr1
      = Response.redirect 302
          { client_id := env.GITHUB_CLIENT_ID, scope := "repo,user",
            state := if truthyOpt r1.state then r1.state else none,
            redirect_uri := Part000.CALLBACK env } ∧
    AuthJs.handler envA ⟨none, stA⟩ uuidA frA
      = Response.redirect 302
          { client_id := envA.GITHUB_CLIENT_ID, scope := "repo,user",
            state := some (jsOr stA uuidA),
            redirect_uri := AuthJs.ORIGIN envA ++ "/api/auth" } := by
  refine ⟨rfl, rfl, ?_, ?_⟩
  · simp [Part000.handler, h1]
  · simp [AuthJs.handler, truthyOpt]

/-- C8 witness: concrete instance of the amended claim — two requests
with different headers and parameters served under one environment. -/
theorem C8_callback_base_is_process_wide_witness :
    Part000.CALLBACK ⟨"idA", "secA", some "https://renso.example"⟩
      = Part000.CALLBACK ⟨"idB", "secB", some "https://renso.example"⟩ ∧
    (Part000.tokenRequest ⟨"id", "sec", some "https://renso.example"⟩ "abc123").redirect_uri
      = some (Part000.CALLBACK ⟨"id", "sec", some "https://renso.example"⟩) ∧
    Part000.handler ⟨"id", "sec", some "https://renso.example"⟩
        ⟨none, some "st", some "attacker.example", some "other.example", some "http"⟩
        (Except.ok ⟨none, none, none⟩)
      = Response.redirect 302
          { client_id := "id", scope := "repo,user",
            state := if truthyOpt (some "st") then some "st" else none,
            redirect_uri := Part000.CALLBACK ⟨"id", "sec", some "https://renso.example"⟩ } ∧
    AuthJs.handler ⟨"id", "sec", none⟩ ⟨none, some "st"⟩ "u"
        (Except.ok ⟨none, none, none⟩)
      = Response.redirect 302
          { client_id := "id", scope := "repo,user",
            state := some (jsOr (some "st") "u"),
            redirect_uri := AuthJs.ORIGIN ⟨"id", "sec", none⟩ ++ "/api/auth" } :=
  C8_callback_base_is_process_wide "idA" "idB" "secA" "secB"
    (some "https://renso.example") ⟨"id", "sec", some "https://renso.example"⟩
    "abc123" ⟨none, some "st", some "attacker.example", some "other.example", some "http"⟩
    (Except.ok ⟨none, none, none⟩) ⟨"id", "sec", none⟩ (some "st") "u"
    (Except.ok ⟨none, none, none⟩) (by decide)
